import Mathlib

/-!
Shallow embedding of `mrequests.py` (a minimal HTTP/1.1 client for
MicroPython) and proofs about its URL parser, redirect state machine,
wire serialization, status-line reader and body reader.

Byte strings (`bytes`/`str` of the source, all ASCII here) are modelled
as `List Char`; fallible Python code is modelled with `Except PyError`.
-/

set_option autoImplicit false
set_option maxRecDepth 40000

/-- Kinds of Python exceptions raised by the code paths modelled here. -/
inductive PyError where
  | valueError
  | typeError
  | attributeError
  | nameError
  | indexError
  | assertionError
deriving DecidableEq, Repr

/-- Decidable equality for `Except`, so that concrete runs can be settled
with `decide`. -/
instance {ε α : Type} [DecidableEq ε] [DecidableEq α] : DecidableEq (Except ε α) := fun x y =>
  match x, y with
  | Except.ok a, Except.ok b =>
    if h : a = b then isTrue (by rw [h]) else isFalse (by simp [h])
  | Except.error a, Except.error b =>
    if h : a = b then isTrue (by rw [h]) else isFalse (by simp [h])
  | Except.ok _, Except.error _ => isFalse (by simp)
  | Except.error _, Except.ok _ => isFalse (by simp)

/-- Byte strings of the source (`str` and `bytes`, ASCII throughout). -/
abbrev Bytes := List Char

/-- Test whether `p` is a prefix of the second list (Boolean, executable). -/
def isPreB : Bytes → Bytes → Bool
  | [], _ => true
  | _ :: _, [] => false
  | p :: ps, c :: cs => p == c && isPreB ps cs

/-- Python `s.find(sub)`: index of the first occurrence of `sub`, `none` for `-1`. -/
def findSub (pat : Bytes) : Bytes → Option Nat
  | [] => if pat = [] then some 0 else none
  | c :: t => if isPreB pat (c :: t) then some 0 else (findSub pat t).map (· + 1)

/-- Python `s.rstrip(':')`: drop all trailing colons. -/
def rstripColon (s : Bytes) : Bytes :=
  (s.reverse.dropWhile (fun c => c = ':')).reverse

/-- Python `s.rfind(c)` for a single character: index of the last occurrence,
`none` for `-1`. -/
def pyRFindChar (c : Char) : Bytes → Option Nat
  | [] => none
  | x :: r =>
    match pyRFindChar c r with
    | some i => some (i + 1)
    | none => if x = c then some 0 else none

/-- Python `s.split(sep, 1)[0]` for a single-character separator: the part
before the first occurrence (the whole string when absent). -/
def splitFirst (c : Char) : Bytes → Bytes
  | [] => []
  | x :: r => if x = c then [] else x :: splitFirst c r

/-- ASCII whitespace as recognised by Python `str.strip` and `int()`. -/
def isPyWs (c : Char) : Bool :=
  c = ' ' || c = '\t' || c = '\n' || c = '\r' || c = '\x0b' || c = '\x0c'

/-- Strip leading and trailing whitespace (Python `s.strip()`). -/
def stripWs (s : Bytes) : Bytes :=
  ((s.dropWhile isPyWs).reverse.dropWhile isPyWs).reverse

/-- Strip trailing whitespace (Python `s.rstrip()`). -/
def rstripWs (s : Bytes) : Bytes :=
  (s.reverse.dropWhile isPyWs).reverse

/-- Value of one digit character in the given base (`none` when invalid),
as accepted by Python `int(s, base)`. -/
def digitVal (base : Nat) (c : Char) : Option Nat :=
  let v :=
    if '0' ≤ c ∧ c ≤ '9' then some (c.toNat - ('0').toNat)
    else if 'a' ≤ c ∧ c ≤ 'z' then some (c.toNat - ('a').toNat + 10)
    else if 'A' ≤ c ∧ c ≤ 'Z' then some (c.toNat - ('A').toNat + 10)
    else none
  match v with
  | some n => if n < base then some n else none
  | none => none

/-- Continuation of a digit group after a digit was read: Python `int()`
allows single underscores between digits. -/
def digitGrp (base : Nat) : Bytes → Bool
  | [] => true
  | '_' :: rest =>
    match rest with
    | [] => false
    | c :: r => (digitVal base c).isSome && digitGrp base r
  | c :: r => (digitVal base c).isSome && digitGrp base r

/-- Valid digit group for Python `int()`: nonempty, starts and ends with a
digit, single underscores only between digits. -/
def digitsOK (base : Nat) : Bytes → Bool
  | [] => false
  | c :: r => (digitVal base c).isSome && digitGrp base r

/-- Numeric value of a digit group (underscores skipped). -/
def digitsNum (base : Nat) (l : Bytes) : Nat :=
  (l.filter (fun c => c ≠ '_')).foldl (fun acc c => acc * base + (digitVal base c).getD 0) 0

/-- Model of Python `int(s, base)` on ASCII input: strip whitespace, optional
sign, for base 16 an optional `0x`/`0X` prefix (optionally followed by one
underscore), then a digit group; `ValueError` otherwise. -/
def pyIntB (base : Nat) (s : Bytes) : Except PyError Int :=
  let t := stripWs s
  let signed : Int × Bytes :=
    match t with
    | '+' :: r => (1, r)
    | '-' :: r => (-1, r)
    | _ => (1, t)
  let sign := signed.1
  let t1 := signed.2
  let t2 :=
    if base = 16 then
      match t1 with
      | '0' :: c :: r =>
        if c = 'x' ∨ c = 'X' then
          match r with
          | '_' :: r2 => r2
          | _ => r
        else t1
      | _ => t1
    else t1
  if digitsOK base t2 then Except.ok (sign * (digitsNum base t2 : Int))
  else Except.error PyError.valueError

/-- Lines 51-56 of `parse_url`: locate `"//"`; the part before it (minus
trailing colons) is the scheme, the part after it the location; no `"//"`
means an empty scheme and the whole string as location. -/
def parseSchemeLoc (url : Bytes) : Bytes × Bytes :=
  match findSub (("//").data) url with
  | some delim => (rstripColon (url.take delim), url.drop (delim + 2))
  | none => ([], url)

/-- Lines 58-69 of `parse_url`: split the location at the first `/` into an
optional host and a path; with no `/`, a non-empty scheme makes the whole
location the host with path `/`, otherwise the location is a bare path. -/
def parseHostPath (scheme loc : Bytes) : Option Bytes × Bytes :=
  match findSub (("/").data) loc with
  | none => if scheme ≠ [] then (some loc, ("/").data) else (none, loc)
  | some 0 => (none, loc)
  | some psep => (some (loc.take psep), loc.drop psep)

/-- Lines 71-76 of `parse_url`: when the host has a `:` at a positive index,
the suffix is converted with `int()` (which may raise `ValueError`) and the
host is truncated. -/
def parsePort (host : Bytes) : Except PyError (Bytes × Option Int) :=
  match pyRFindChar ':' host with
  | some hsep =>
    if 0 < hsep then
      match pyIntB 10 (host.drop (hsep + 1)) with
      | Except.error e => Except.error e
      | Except.ok p => Except.ok (host.take hsep, some p)
    else Except.ok (host, none)
  | none => Except.ok (host, none)

/-- Convert an empty byte string to `none` (Python `scheme or None`). -/
def orNone (s : Bytes) : Option Bytes :=
  if s = [] then none else some s

/-- Model of `parse_url` (lines 45-78): returns
`(scheme or None, host, port, path)`; `int()` on a malformed port raises
`ValueError`.  Note the host is skipped for port extraction when falsy
(`None` or empty), and an empty host is returned as `some []`. -/
def parse_url (url : Bytes) : Except PyError (Option Bytes × Option Bytes × Option Int × Bytes) :=
  let sl := parseSchemeLoc url
  let hp := parseHostPath sl.1 sl.2
  match hp.1 with
  | some h =>
    if h ≠ [] then
      match parsePort h with
      | Except.error e => Except.error e
      | Except.ok hpn => Except.ok (orNone sl.1, some hpn.1, hpn.2, hp.2)
    else Except.ok (orNone sl.1, some h, none, hp.2)
  | none => Except.ok (orNone sl.1, none, none, hp.2)

/-- The mutable request target of one logical call (class `RequestContext`,
lines 81-127).  `_port` models the `_port` attribute; `port` below models the
read-only `port` property. -/
structure RequestContext where
  redirect : Bool
  method : Bytes
  scheme : Bytes
  host : Bytes
  _port : Option Int
  path : Bytes
deriving DecidableEq, Repr

/-- The `port` property (lines 89-91): the explicit port, else 443 for
`https`, else 80. -/
def RequestContext.port (ctx : RequestContext) : Int :=
  match ctx._port with
  | some p => p
  | none => if ctx.scheme = ("https").data then 443 else 80

/-- `RequestContext.__init__` (lines 82-87): parse the URL and require a
truthy scheme and host. -/
def RequestContext.make (url : Bytes) (method : Option Bytes) : Except PyError RequestContext :=
  match parse_url url with
  | Except.error e => Except.error e
  | Except.ok (schemeQ, hostQ, portQ, path) =>
    let scheme := schemeQ.getD []
    let host := hostQ.getD []
    if scheme = [] ∨ host = [] then Except.error PyError.valueError
    else Except.ok { redirect := false, method := method.getD (("GET").data),
                     scheme := scheme, host := host, _port := portQ, path := path }

/-- `RequestContext.set_location` (lines 101-127).  Statuses 301/302/307/308
always set the redirect flag, 303 only for a non-GET method.  When
redirecting: parse the location (a `ValueError` from the port conversion
propagates), cancel on an https → non-https downgrade, normalize the method,
merge truthy scheme/host, and resolve the path.  The assignment
`self.port = port` on line 122 targets the read-only `port` property (lines
89-91 define no setter), so a location with an explicit port raises
`AttributeError`.  Line 127 computes `self.path.rsplit("/")[0]`, i.e. an
unlimited rsplit whose first element is the part before the FIRST slash. -/
def RequestContext.set_location (ctx : RequestContext) (status : Int) (location : Bytes) :
    Except PyError RequestContext :=
  let redirect :=
    if status = 301 ∨ status = 302 ∨ status = 307 ∨ status = 308 then true
    else if status = 303 ∧ ¬ ctx.method = ("GET").data then true
    else ctx.redirect
  if redirect then
    match parse_url location with
    | Except.error e => Except.error e
    | Except.ok (schemeQ, hostQ, portQ, path) =>
      if schemeQ.isSome ∧ ctx.scheme = ("https").data ∧ ¬ schemeQ = some (("https").data) then
        Except.ok { ctx with redirect := false }
      else
        let method :=
          if ¬ (status = 307 ∨ status = 308) ∧ ¬ ctx.method = ("HEAD").data then ("GET").data
          else ctx.method
        let scheme := match schemeQ with | some s => s | none => ctx.scheme
        let host :=
          match hostQ with
          | some h => if h = [] then ctx.host else h
          | none => ctx.host
        if portQ.isSome then Except.error PyError.attributeError
        else
          let path2 :=
            if path.head? = some '/' then path
            else (ctx.path.splitOn '/').headI ++ ('/' :: path)
          Except.ok { redirect := redirect, method := method, scheme := scheme,
                      host := host, _port := ctx._port, path := path2 }
  else Except.ok ctx

/-- The byte stream behind a response (`sock.makefile("rb")`), a blocking
buffered reader that the `Connection: close` request eventually exhausts. -/
structure ByteStream where
  data : Bytes
deriving DecidableEq, Repr

/-- Model of `file.read(n)` on the buffered reader: `n` bytes (fewer at end
of stream); a negative `n` reads everything. -/
def ByteStream.read (s : ByteStream) (n : Int) : Bytes × ByteStream :=
  if n < 0 then (s.data, ⟨[]⟩)
  else (s.data.take n.toNat, ⟨s.data.drop n.toNat⟩)

/-- Core of `file.readline()`: the line up to and including the first
newline, and the rest. -/
def readlineCore : Bytes → Bytes × Bytes
  | [] => ([], [])
  | c :: r =>
    if c = '\n' then ([c], r)
    else
      let p := readlineCore r
      (c :: p.1, p.2)

/-- Model of `file.readline()` on the buffered reader. -/
def ByteStream.readline (s : ByteStream) : Bytes × ByteStream :=
  let p := readlineCore s.data
  (p.1, ⟨p.2⟩)

/-- Constant `MAX_READ_SIZE = 4 * 1024` (line 11), used both as the default
`read` size and as the status-line cap. -/
def MAX_READ_SIZE : Int := 4096

/-- Body-reading state of class `Response` (lines 130-141): `chunked`,
`_chunk_size` and `_content_size` (`status`, `reason` and retained headers do
not influence `read`). -/
structure Response where
  chunked : Bool
  chunkSize : Int
  contentSize : Int
deriving DecidableEq, Repr

/-- Lines 152-165 of `Response.read`: when the chunk remainder is 0, read a
chunk-size line, strip any `;` extension, convert with `int(l, 16)`; a zero
size consumes the final `CRLF` (mismatch raises `ValueError`) and signals the
early return of `b""` (modelled as `some []`). -/
def Response.chunkLine (r : Response) (s : ByteStream) :
    Except PyError (Option Bytes × Response × ByteStream) :=
  let lp := s.readline
  let l0 := splitFirst ';' lp.1
  match pyIntB 16 l0 with
  | Except.error e => Except.error e
  | Except.ok cs =>
    if cs = 0 then
      let sp := lp.2.read 2
      if sp.1 = ('\r' :: '\n' :: []) then Except.ok (some [], { r with chunkSize := 0 }, sp.2)
      else Except.error PyError.valueError
    else Except.ok (none, { r with chunkSize := cs }, lp.2)

/-- `Response.read(size=MAX_READ_SIZE)` (lines 148-180).  `size = none`
models Python `None`; `read()` with the default argument is
`Response.readDefault` below.  Chunked: fetch a chunk-size line when the
remainder is 0 (early-returning `b""` on the final chunk), then read
`min(size, remaining)` bytes and consume the separating `CRLF` once the
chunk is exhausted (mismatch raises `ValueError`); `min(None, int)` would
raise `TypeError`.  Non-chunked: a truthy `size` reads `size` bytes straight
from the stream, a falsy one reads `_content_size` bytes. -/
def Response.read (r : Response) (size : Option Int) (s : ByteStream) :
    Except PyError (Bytes × Response × ByteStream) :=
  if r.chunked then
    match (if r.chunkSize = 0 then r.chunkLine s else Except.ok (none, r, s)) with
    | Except.error e => Except.error e
    | Except.ok (some ret, r1, s1) => Except.ok (ret, r1, s1)
    | Except.ok (none, r1, s1) =>
      match size with
      | none => Except.error PyError.typeError
      | some sz =>
        let dp := s1.read (min sz r1.chunkSize)
        let r2 := { r1 with chunkSize := r1.chunkSize - (dp.1.length : Int) }
        if r2.chunkSize = 0 then
          let sp := dp.2.read 2
          if sp.1 = ('\r' :: '\n' :: []) then Except.ok (dp.1, r2, sp.2)
          else Except.error PyError.valueError
        else Except.ok (dp.1, r2, dp.2)
  else
    let truthy := match size with | none => false | some n => ¬ n = 0
    if truthy then
      let dp := s.read (size.getD 0)
      Except.ok (dp.1, r, dp.2)
    else
      let dp := s.read r.contentSize
      Except.ok (dp.1, r, dp.2)

/-- A call `resp.read()` with no argument uses the default
`size=MAX_READ_SIZE` (line 148). -/
def Response.readDefault (r : Response) (s : ByteStream) : Except PyError (Bytes × Response × ByteStream) :=
  r.read (some MAX_READ_SIZE) s

/-- Test `l.endswith(b"\r\n")` on the reversed accumulator. -/
def endsCRLFrev : Bytes → Bool
  | [] => false
  | [_] => false
  | a :: b :: _ => a == '\n' && b == '\r'

/-- Status-line loop of `request` (lines 315-321): read one byte at a time,
appending to `l` (kept reversed here so each step is constant work; the
returned line is `racc.reverse`), until the accumulated buffer ends in
`CRLF` or more than `MAX_READ_SIZE` bytes were read.  The counter `i` starts
at 0 and the loop breaks no later than `i = 4097`, so fuel 4097 is never
exhausted. -/
def statusLineLoop : Nat → Nat → Bytes → ByteStream → Bytes × ByteStream
  | 0, _, racc, s => (racc.reverse, s)
  | fuel + 1, i, racc, s =>
    let cp := s.read 1
    let racc1 := cp.1.reverse ++ racc
    let i1 := i + 1
    if endsCRLFrev racc1 ∨ 4096 < i1 then
      (racc1.reverse, cp.2)
    else statusLineLoop fuel i1 racc1 cp.2

/-- The status line as accumulated by lines 315-321. -/
def readStatusLine (s : ByteStream) : Bytes × ByteStream :=
  statusLineLoop 4097 0 [] s

/-- Python `l.split(None, 2)`: split on whitespace runs, at most 3 fields;
the third field keeps trailing whitespace. -/
def pySplitWs2 (l : Bytes) : List Bytes :=
  let l1 := l.dropWhile isPyWs
  match l1 with
  | [] => []
  | _ =>
    let f1 := l1.takeWhile (fun c => ¬ isPyWs c)
    let r1 := (l1.dropWhile (fun c => ¬ isPyWs c)).dropWhile isPyWs
    match r1 with
    | [] => [f1]
    | _ =>
      let f2 := r1.takeWhile (fun c => ¬ isPyWs c)
      let r2 := (r1.dropWhile (fun c => ¬ isPyWs c)).dropWhile isPyWs
      match r2 with
      | [] => [f1, f2]
      | _ => [f1, f2, r2]

/-- Lines 325-329 of `request`: split the accumulated line with
`l.split(None, 2)`, convert field 1 with `int()` (an absent field raises
`IndexError`), and `rstrip` the optional reason field. -/
def parseStatus (l : Bytes) : Except PyError (Int × Bytes) :=
  let parts := pySplitWs2 l
  match parts.get? 1 with
  | none => Except.error PyError.indexError
  | some f =>
    match pyIntB 10 f with
    | Except.error e => Except.error e
    | Except.ok st =>
      let reason := match parts.get? 2 with | some rr => rstripWs rr | none => []
      Except.ok (st, reason)

/-- Status-line phase of `request` (lines 315-329): accumulate the line,
then parse it. -/
def statusStep (s : ByteStream) : Except PyError (Int × Bytes × ByteStream) :=
  let lp := readStatusLine s
  match parseStatus lp.1 with
  | Except.error e => Except.error e
  | Except.ok sr => Except.ok (sr.1, sr.2, lp.2)

/-- Keys of the header mapping: Python `str` or `bytes` keys are distinct
dictionary keys. -/
inductive HKey where
  | str (s : Bytes)
  | bytes (s : Bytes)
deriving DecidableEq, Repr

/-- The header mapping, as an insertion-ordered dictionary. -/
abbrev Headers := List (HKey × Bytes)

/-- The bytes written for a key (line 291: `k if isinstance(k, bytes) else
k.encode('ascii')`). -/
def keyBytes : HKey → Bytes
  | HKey.str s => s
  | HKey.bytes s => s

/-- Python `key in dict`. -/
def containsKeyB (hs : Headers) (k : HKey) : Bool :=
  hs.any (fun kv => kv.1 == k)

/-- Python `dict[k] = v`: replace in place, else append. -/
def dictSet (d : Headers) (k : HKey) (v : Bytes) : Headers :=
  if containsKeyB d k then d.map (fun kv => if kv.1 == k then (k, v) else kv)
  else d ++ [(k, v)]

/-- Python `dict.update(other)` for the insertion-ordered model. -/
def dictUpdate (d u : Headers) : Headers :=
  u.foldl (fun acc kv => dictSet acc kv.1 kv.2) d

/-- `encode_basic_auth` (lines 14-18): the base64 encoder (`ubinascii`) is an
external capability, passed in as `b64`. -/
def encode_basic_auth (b64 : Bytes → Bytes) (user password : Bytes) : Headers :=
  [(HKey.bytes (("Authorization").data), ("Basic ").data ++ b64 (user ++ (':' :: password)))]

/-- The `auth` argument of `request`: either a `(user, password)` pair or a
callable returning a header mapping (line 254). -/
inductive AuthArg where
  | creds (user password : Bytes)
  | provider (hs : Headers)
deriving DecidableEq, Repr

/-- Line 254: `auth if callable(auth) else encode_basic_auth(auth[0], auth[1])`. -/
def authHeaders (b64 : Bytes → Bytes) : AuthArg → Headers
  | AuthArg.creds u p => encode_basic_auth b64 u p
  | AuthArg.provider hs => hs

/-- The serialized request of one attempt: the `CRLF`-terminated lines
written by lines 285-305 (each element is one line without its terminator;
the final empty element is the blank line of line 305), followed by the raw
body bytes of line 308.  The wire bytes are the lines joined with `CRLF`
plus the body. -/
structure Wire where
  lines : List Bytes
  body : Bytes
deriving DecidableEq, Repr

/-- Whether a body is written (lines 296 and 307): `data` is truthy and the
method is neither GET nor HEAD. -/
def bodyWritten (method : Bytes) (data : Option Bytes) : Bool :=
  (match data with | some d => ¬ d = [] | none => false) &&
  ¬ method = ("GET").data && ¬ method = ("HEAD").data

/-- Host synthesis condition of line 287: `if not b"Host" in headers` — only
the `bytes` key `b"Host"` is looked up. -/
def synthesizesHost (headers : Headers) : Bool :=
  ¬ containsKeyB headers (HKey.bytes (("Host").data))

/-- Wire Writer (lines 285-308): request line, a synthesized `Host` header
when the `bytes` key `b"Host"` is absent, all caller headers in order, for a
written body an optional JSON `Content-Type` (with charset when an encoding
was given) and a `Content-Length` sized with `len(data)`, an unconditional
`Connection: close`, the blank line, then the body. -/
def wireLines (ctx : RequestContext) (headers : Headers) (data : Option Bytes)
    (isJson : Bool) (encoding : Option Bytes) : Wire :=
  { lines :=
      (ctx.method ++ (' ' :: ctx.path) ++ (" HTTP/1.1").data)
      :: ((if synthesizesHost headers then ((("Host: ").data ++ ctx.host) :: []) else [])
      ++ headers.map (fun kv => keyBytes kv.1 ++ (':' :: ' ' :: kv.2))
      ++ (if bodyWritten ctx.method data then
            (if isJson then
               ((("Content-Type: application/json").data ++
                 (match encoding with
                  | some e => ("; charset=").data ++ e
                  | none => [])) :: [])
             else [])
            ++ ((("Content-Length: ").data ++ Nat.toDigits 10 (data.getD []).length) :: [])
          else [])
      ++ ((("Connection: close").data) :: [])
      ++ ([] :: [])),
    body := if bodyWritten ctx.method data then data.getD [] else [] }

/-- Module-level mutable state: the default value of the `headers={}`
parameter (line 246) is a single dictionary created once at function
definition time and shared by every call that omits `headers`. -/
structure ModState where
  defaultHeaders : Headers
deriving DecidableEq, Repr

/-- Arguments of one top-level `request` call that affect the wire.
`headersArg = none` means the caller omitted `headers` and the shared
default dictionary is used.  `jsonData` is the output of the external
`ujson.dumps` for the `json` argument. -/
structure Args where
  method : Bytes
  url : Bytes
  data : Option Bytes
  jsonData : Option Bytes
  headersArg : Option Headers
  auth : Option AuthArg
  encoding : Option Bytes
deriving Repr

/-- Lines 256-260: `json` forces `assert data is None` and replaces `data`
with the encoded document; the flag records that a JSON body was supplied. -/
def jsonResolve (jsonData data : Option Bytes) : Except PyError (Option Bytes × Bool) :=
  match jsonData with
  | some j => if data.isSome then Except.error PyError.assertionError else Except.ok (some j, true)
  | none => Except.ok (data, false)

/-- Header preparation, context construction, scheme check and wire
serialization of one `request` attempt (lines 241-308).  Socket transport
and response reading are external; redirect looping re-enters with the
mutated context.  Returns the wire and the module state after the call:
an error result drops the updated state (in Python the dictionary mutation
of line 254 persists even when a later line raises; no property proved here
depends on the state after a failed call), and
a call that omits `headers` and passes `auth` updates the shared default
dictionary in place (lines 246 and 254). -/
def requestWire (b64 : Bytes → Bytes) (a : Args) (st : ModState) :
    Except PyError (Wire × ModState) :=
  let hdrs0 := match a.headersArg with | some h => h | none => st.defaultHeaders
  let hdrs := match a.auth with
    | some au => dictUpdate hdrs0 (authHeaders b64 au)
    | none => hdrs0
  let st1 := match a.headersArg with
    | none => { defaultHeaders := hdrs }
    | some _ => st
  match jsonResolve a.jsonData a.data with
  | Except.error e => Except.error e
  | Except.ok di =>
    match RequestContext.make a.url (some a.method) with
    | Except.error e => Except.error e
    | Except.ok ctx =>
      if ¬ ctx.scheme = ("http").data ∧ ¬ ctx.scheme = ("https").data then
        Except.error PyError.valueError
      else Except.ok (wireLines ctx hdrs di.1 di.2 a.encoding, st1)

/-- Local names bound in the body of `request` (lines 241-273) by the time
line 282 executes: the ten parameters and the assignments to `ctx`, `ai`,
`sock` and the imported `ssl`.  No assignment to a name `host` exists
anywhere in the function. -/
def requestLocalNames : List (List Char) :=
  [("method").data, ("url").data, ("data").data, ("json").data, ("headers").data,
   ("auth").data, ("encoding").data, ("response_class").data, ("save_headers").data,
   ("max_redirects").data, ("ctx").data, ("ai").data, ("sock").data, ("ssl").data]

/-- Module-level names of `mrequests.py` (imports, constants, functions and
classes). -/
def moduleGlobalNames : List (List Char) :=
  [("sys").data, ("socket").data, ("MICROPY").data, ("MAX_READ_SIZE").data,
   ("encode_basic_auth").data, ("head").data, ("get").data, ("post").data,
   ("put").data, ("patch").data, ("delete").data, ("parse_url").data,
   ("RequestContext").data, ("Response").data, ("request").data]

/-- Python builtins referenced by the module (none of them is `host`). -/
def builtinNames : List (List Char) :=
  [("int").data, ("len").data, ("min").data, ("isinstance").data, ("callable").data,
   ("open").data, ("str").data, ("print").data, ("ValueError").data, ("OSError").data,
   ("ImportError").data, ("AssertionError").data, ("property").data]

/-- Python name resolution at line 282 (`ssl.wrap_socket(sock,
server_hostname=host)`): a name is looked up in the local, then module, then
builtin scope; an unbound name raises `NameError`. -/
def resolveNameAt282 (n : List Char) : Except PyError (List Char) :=
  if n ∈ requestLocalNames ∨ n ∈ moduleGlobalNames ∨ n ∈ builtinNames then Except.ok n
  else Except.error PyError.nameError

/-- The `server_hostname` argument passed to the TLS wrap on line 282 is the
bare name `host`. -/
def serverHostnameArg : Except PyError (List Char) :=
  resolveNameAt282 (("host").data)

/-- The TLS step of the orchestrator (lines 276-282): for an `https` target
the socket is wrapped with `server_hostname` bound to the value of the name
`host`; for other schemes no wrap happens and no server name is involved. -/
def tlsServerName (ctx : RequestContext) : Except PyError (Option (List Char)) :=
  if ctx.scheme = ("https").data then
    match serverHostnameArg with
    | Except.error e => Except.error e
    | Except.ok v => Except.ok (some v)
  else Except.ok none

/-- Adjacent `"\r\n"` pair detector, used to characterise the status-line
loop: the loop's `endswith` break never fires on a buffer without one. -/
def hasCRLF : Bytes → Bool
  | [] => false
  | [_] => false
  | a :: b :: r => (a == '\r' && b == '\n') || hasCRLF (b :: r)

/-- A serialized line counts as a Host header line when it starts with
`Host:`. -/
def lineIsHost (l : Bytes) : Bool :=
  isPreB (("Host:").data) l

/-- Number of Host header lines on the wire. -/
def countHostLines (w : Wire) : Nat :=
  w.lines.countP lineIsHost

/-- Concrete request target `http://h/` with method GET, as built by
`RequestContext("http://h/")`. -/
def ctxHttp : RequestContext :=
  { redirect := false, method := ("GET").data, scheme := ("http").data,
    host := ("h").data, _port := none, path := ("/").data }

/-- Concrete request target `https://h/` with method GET. -/
def ctxHttps : RequestContext :=
  { ctxHttp with scheme := ("https").data }

/-- Concrete request target `http://h/a/b/c` with method GET. -/
def ctxABC : RequestContext :=
  { ctxHttp with path := ("/a/b/c").data }

/-- A fresh chunked response (`chunked = True`, `_chunk_size = 0`). -/
def chunkResp : Response :=
  { chunked := true, chunkSize := 0, contentSize := 0 }

/-- A non-chunked response with `Content-Length: 5`. -/
def clResp : Response :=
  { chunked := false, chunkSize := 0, contentSize := 5 }

/-- The chunked body stream of the decode example. -/
def chunkStream0 : ByteStream := ⟨("4\r\nWiki\r\n5\r\npedia\r\n0\r\n\r\n").data⟩

/-- The stream after the first chunk was consumed. -/
def chunkStream1 : ByteStream := ⟨("5\r\npedia\r\n0\r\n\r\n").data⟩

/-- The stream after the second chunk was consumed. -/
def chunkStream2 : ByteStream := ⟨("0\r\n\r\n").data⟩

/-- The exhausted stream after the terminating chunk. -/
def chunkStream3 : ByteStream := ⟨[]⟩

/-- A caller header mapping that supplies `Host` under a `str` key. -/
def hsStrHost : Headers :=
  [(HKey.str (("Host").data), ("example.org").data)]

/-- A concrete stand-in for the external base64 capability (its value never
matters for the properties proved here, only whether a header is added). -/
def b64id : Bytes → Bytes := fun s => s

/-- The pristine module state: the shared `headers={}` default is empty. -/
def st0 : ModState := { defaultHeaders := [] }

/-- The module state after a call that passed `auth=("u", "p")` while using
the default header mapping. -/
def stAfterAuth : ModState :=
  { defaultHeaders := [(HKey.bytes (("Authorization").data), ("Basic u:p").data)] }

/-- Arguments of a GET to `http://h/` with `auth=("u", "p")` and the
`headers` argument omitted. -/
def argsAuth : Args :=
  { method := ("GET").data, url := ("http://h/").data, data := none, jsonData := none,
    headersArg := none, auth := some (AuthArg.creds (("u").data) (("p").data)),
    encoding := none }

/-- The same call without `auth`. -/
def argsPlain : Args :=
  { argsAuth with auth := none }


/-!
Theorems.  Each claim of the specification review is settled by exactly one
theorem below (plus, where applicable, a witness or a counterexample).
-/

/-- C1.  On line 282 the `server_hostname` argument of the TLS wrap is the
bare name `host`, which is bound neither in `request`'s local scope nor at
module or builtin level, so every `https` request raises `NameError` there;
the spec's intended value `ctx.host` would have been available, since `ctx`
is in scope. -/
theorem c1_tls_server_name_unbound :
    tlsServerName ctxHttps = Except.error PyError.nameError ∧
    resolveNameAt282 (("ctx").data) = Except.ok (("ctx").data) := by decide

/-- C2.  Applying an eligible redirect with relative location `d` to the
path `/a/b/c` yields `/d`, not `/a/b/d`: line 127 calls `rsplit("/")`
without a maxsplit, so element 0 is the part before the FIRST slash (empty
here), not the directory prefix. -/
theorem c2_relative_path_resolution_bug :
    RequestContext.set_location ctxABC 301 (("d").data) =
      Except.ok { ctxABC with redirect := true, path := ("/d").data } ∧
    ¬ (("/d").data : Bytes) = ("/a/b/d").data := by decide

/-- C3.  An eligible redirect whose location carries an explicit port
(`http://h:8080/x`) raises `AttributeError`: line 122 assigns to the
read-only property `port` (lines 89-91 define no setter), so the port is
never overwritten and `set_location` does not return normally. -/
theorem c3_port_overwrite_attribute_error :
    RequestContext.set_location ctxHttp 301 (("http://h:8080/x").data) =
      Except.error PyError.attributeError := by decide

/-- C4 (amended).  The chunked body `4\r\nWiki\r\n5\r\npedia\r\n0\r\n\r\n`
decodes via repeated `read()` calls to `Wiki` then `pedia`, whose
concatenation is `Wikipedia`, and the next read consumes the terminating
zero chunk and returns the empty byte string. -/
theorem c4_chunked_decode :
    chunkResp.readDefault chunkStream0 = Except.ok (("Wiki").data, chunkResp, chunkStream1) ∧
    chunkResp.readDefault chunkStream1 = Except.ok (("pedia").data, chunkResp, chunkStream2) ∧
    chunkResp.readDefault chunkStream2 = Except.ok ([], chunkResp, chunkStream3) ∧
    (("Wiki").data ++ ("pedia").data ++ ([] : Bytes)) = ("Wikipedia").data := by decide

/-- C4 counterexample.  After the read that returned the empty byte string,
a further `read()` does not return empty again: it reads an empty chunk-size
line from the exhausted stream and `int(b"", 16)` raises `ValueError`. -/
theorem c4_counterexample_further_read_raises :
    chunkResp.readDefault chunkStream2 = Except.ok ([], chunkResp, chunkStream3) ∧
    chunkResp.readDefault chunkStream3 = Except.error PyError.valueError := by decide

/-- C6 counterexample.  With `Content-Length: 5` and a stream of 5 payload
bytes followed by 5 extra bytes, `read()` with no explicit size uses the
default `size=MAX_READ_SIZE`, takes the truthy branch of line 177, and
returns all 10 raw bytes — it reads past the declared content length. -/
theorem c6_counterexample_default_read_unbounded :
    clResp.readDefault ⟨("AAAAABBBBB").data⟩ =
      Except.ok (("AAAAABBBBB").data, clResp, ⟨[]⟩) ∧
    ¬ (("AAAAABBBBB").data : Bytes) = ("AAAAA").data := by decide

/-- C8 counterexample.  A call that omits `headers` while passing
`auth=("u","p")` permanently adds the Authorization entry to the shared
default dictionary; an identical later call without `auth` then serializes
different wire bytes than the same call against the pristine module state. -/
theorem c8_counterexample_shared_default_headers :
    Except.map (fun r => r.2) (requestWire b64id argsAuth st0) = Except.ok stAfterAuth ∧
    ¬ requestWire b64id argsPlain stAfterAuth = requestWire b64id argsPlain st0 := by decide

/-- C9 counterexample.  Line 287 checks only the `bytes` key `b"Host"`, so a
caller mapping that supplies `Host` under a `str` key does not suppress the
synthesized header and the serialized request carries two Host lines. -/
theorem c9_counterexample_two_host_lines :
    synthesizesHost hsStrHost = true ∧
    countHostLines (wireLines ctxHttp hsStrHost none false none) = 2 := by decide

/-- C6 (amended).  Non-chunked reading bounded by the content length is the
`size=None` call (the falsy branch of line 177, used by the `content`
accessor): with `Content-Length` equal to the payload length it returns
exactly the payload and leaves every byte beyond it unread on the stream. -/
theorem c6_read_none_bounded (payload extra : Bytes) (r : Response)
    (hc : r.chunked = false) (hl : r.contentSize = (payload.length : Int)) :
    r.read none ⟨payload ++ extra⟩ = Except.ok (payload, r, ⟨extra⟩) := by
  unfold Response.read ByteStream.read
  rw [hc, hl]
  simp only [if_neg (show ¬ ((payload.length : Int) < 0) by omega)]
  simp [Int.toNat_natCast, List.take_left, List.drop_left]

/-- C6 witness: `Content-Length: 5`, payload `AAAAA`, extra `BBBBB`. -/
theorem c6_witness :
    clResp.read none ⟨("AAAAA").data ++ ("BBBBB").data⟩ =
      Except.ok (("AAAAA").data, clResp, ⟨("BBBBB").data⟩) :=
  c6_read_none_bounded (("AAAAA").data) (("BBBBB").data) clResp (by rfl) (by rfl)

/-- C8 (amended).  A call that passes an explicit header mapping is
independent of the module state: the wire bytes do not depend on what
earlier calls did to the shared default dictionary. -/
theorem c8_explicit_headers_isolated (b64 : Bytes → Bytes) (a : Args) (h : Headers)
    (st st2 : ModState) (ha : a.headersArg = some h) :
    Except.map (fun r => r.1) (requestWire b64 a st) =
    Except.map (fun r => r.1) (requestWire b64 a st2) := by
  unfold requestWire
  rw [ha]
  cases h1 : jsonResolve a.jsonData a.data with
  | error e => simp [h1]
  | ok di =>
    cases h2 : RequestContext.make a.url (some a.method) with
    | error e => simp [h1, h2]
    | ok ctx =>
      by_cases h3 : ¬ ctx.scheme = ("http").data ∧ ¬ ctx.scheme = ("https").data <;>
        simp [h1, h2, h3, Except.map]

/-- C8 witness: the same GET with an explicit empty mapping serializes
identically from the pristine and from the mutated module state. -/
theorem c8_witness :
    Except.map (fun r => r.1) (requestWire b64id { argsPlain with headersArg := some [] } st0) =
    Except.map (fun r => r.1) (requestWire b64id { argsPlain with headersArg := some [] } stAfterAuth) :=
  c8_explicit_headers_isolated b64id _ [] st0 stAfterAuth rfl

/-- C7.  Downgrade protection: for a current `https` scheme, an eligible
redirect status and a location whose parsed scheme is present and differs
from `https`, `set_location` returns with the redirect flag false and every
other field unchanged (lines 110-112 return before any mutation). -/
theorem c7_downgrade_protection (ctx : RequestContext) (status : Int) (loc : Bytes)
    (s : Bytes) (hq : Option Bytes) (pq : Option Int) (pth : Bytes)
    (hsch : ctx.scheme = ("https").data)
    (helig : status = 301 ∨ status = 302 ∨ status = 307 ∨ status = 308 ∨
             (status = 303 ∧ ¬ ctx.method = ("GET").data))
    (hp : parse_url loc = Except.ok (some s, hq, pq, pth))
    (hns : ¬ s = ("https").data) :
    RequestContext.set_location ctx status loc = Except.ok { ctx with redirect := false } := by
  unfold RequestContext.set_location
  have hred : (if status = 301 ∨ status = 302 ∨ status = 307 ∨ status = 308 then true
               else if status = 303 ∧ ¬ ctx.method = ("GET").data then true
               else ctx.redirect) = true := by
    rcases helig with h | h | h | h | h <;> simp [h]
  rw [hred, hp]
  simp [hsch, hns]

/-- C7 witness: a 301 from `https://h/` to `http://x/y` is cancelled. -/
theorem c7_witness :
    RequestContext.set_location ctxHttps 301 (("http://x/y").data) =
      Except.ok { ctxHttps with redirect := false } :=
  c7_downgrade_protection ctxHttps 301 (("http://x/y").data) (("http").data)
    (some (("x").data)) none (("/y").data) (by rfl) (Or.inl rfl) (by decide) (by decide)

/-- C10.  `parse_url` is not total: whenever the extracted host has a colon
at a positive index, the suffix goes through `int()` — a failing conversion
makes `parse_url` raise that `ValueError` instead of returning a tuple,
while a successful one returns the tuple with the converted port.  In
particular `http://h:8a/` raises and `http://h:8080/` parses, and a bad
port arriving in a redirect `Location` aborts `set_location` (and with it
the whole call, since `request` only catches `OSError`). -/
theorem c10_port_value_error :
    (∀ (url h : Bytes) (i : Nat),
        (parseHostPath (parseSchemeLoc url).1 (parseSchemeLoc url).2).1 = some h →
        ¬ h = [] →
        pyRFindChar ':' h = some i →
        0 < i →
        (∀ e, pyIntB 10 (h.drop (i + 1)) = Except.error e →
              parse_url url = Except.error e) ∧
        (∀ n, pyIntB 10 (h.drop (i + 1)) = Except.ok n →
              parse_url url =
                Except.ok (orNone (parseSchemeLoc url).1, some (h.take i), some n,
                  (parseHostPath (parseSchemeLoc url).1 (parseSchemeLoc url).2).2))) ∧
    parse_url (("http://h:8a/").data) = Except.error PyError.valueError ∧
    parse_url (("http://h:8080/").data) =
      Except.ok (some (("http").data), some (("h").data), some 8080, ("/").data) ∧
    RequestContext.set_location ctxHttp 301 (("http://h:8a/x").data) =
      Except.error PyError.valueError := by
  refine ⟨?_, by decide, by decide, by decide⟩
  intro url h i hhp hne hrf hi
  simp only [parse_url, parsePort]
  rw [hhp]
  simp only [hne, ne_eq, not_false_eq_true, if_true]
  rw [hrf]
  simp only [if_pos hi]
  constructor
  · intro e he
    rw [he]
  · intro n hn
    rw [hn]

/-- C10 witness: `http://h:9x/` has host component `h:9x` with a colon at
index 1 and a non-numeric suffix, so parsing raises `ValueError`. -/
theorem c10_witness :
    parse_url (("http://h:9x/").data) = Except.error PyError.valueError :=
  (c10_port_value_error.1 (("http://h:9x/").data) (("h:9x").data) 1
    (by decide) (by decide) (by decide) (by decide)).1 PyError.valueError (by decide)

/-- Helper: matching a colon-free pattern followed by `:` against a
colon-free key followed by `:` succeeds exactly for the equal key. -/
theorem isPreB_colon_free :
    ∀ (p k v : Bytes), ':' ∉ p → ':' ∉ k →
      (isPreB (p ++ ':' :: []) (k ++ ':' :: v) = true ↔ k = p) := by
  intro p
  induction p with
  | nil =>
    intro k v _ hk
    cases k with
    | nil => simp [isPreB]
    | cons c k2 =>
      have hc : ¬ c = ':' := fun h => hk (by simp [h])
      simp [isPreB]
      intro h
      exact absurd h.symm hc
  | cons a p2 ih =>
    intro k v hp hk
    have ha : ¬ a = ':' := fun h => hp (by simp [h])
    have hp2 : ':' ∉ p2 := fun m => hp (List.mem_cons_of_mem _ m)
    cases k with
    | nil =>
      simp [isPreB, ha]
    | cons c k2 =>
      have hk2 : ':' ∉ k2 := fun m => hk (List.mem_cons_of_mem _ m)
      by_cases hac : a = c
      · subst hac
        simp [isPreB, ih k2 v hp2 hk2]
      · simp [isPreB, hac]
        intro h
        exact absurd h.symm hac

/-- Helper: a serialized caller header line starts with `Host:` exactly
when its (colon-free) key is `Host`. -/
theorem lineIsHost_header_line (k v : Bytes) (hk : ':' ∉ k) :
    lineIsHost (k ++ ':' :: ' ' :: v) = decide (k = ("Host").data) := by
  have hiff := isPreB_colon_free (("Host").data) k (' ' :: v) (by decide) hk
  unfold lineIsHost
  rw [show (("Host:").data : Bytes) = ("Host").data ++ ':' :: [] from rfl]
  by_cases hkh : k = ("Host").data
  · simp [hkh] at hiff ⊢
    exact hiff
  · simp [hkh] at hiff ⊢
    exact hiff

/-- C9 (amended).  The Wire Writer synthesizes the `Host` header exactly
when the mapping has no `bytes` key `b"Host"` (line 287), and every caller
header whose key serializes to `Host` adds one more Host line: the number
of Host lines is `(0 or 1 synthesized) + (caller Host-keyed entries)`.  A
`str` key `Host` therefore yields two Host lines.  The hypothesis keeps
keys colon-free and keys/values free of `CR`/`LF`, so that one mapping
entry is one wire line. -/
theorem c9_host_synthesis_bytes_key_only (hs : Headers)
    (hwf : ∀ kv ∈ hs, ':' ∉ keyBytes kv.1 ∧ '\r' ∉ keyBytes kv.1 ∧ '\n' ∉ keyBytes kv.1 ∧
           '\r' ∉ kv.2 ∧ '\n' ∉ kv.2) :
    countHostLines (wireLines ctxHttp hs none false none) =
      (if containsKeyB hs (HKey.bytes (("Host").data)) then 0 else 1) +
      hs.countP (fun kv => decide (keyBytes kv.1 = ("Host").data)) := by
  have hmap : List.countP (fun l => lineIsHost l)
        (hs.map (fun kv => keyBytes kv.1 ++ (':' :: ' ' :: kv.2)))
      = List.countP (fun kv => decide (keyBytes kv.1 = ("Host").data)) hs := by
    rw [List.countP_map]
    refine List.countP_congr ?_
    intro kv hmem
    have hline := lineIsHost_header_line (keyBytes kv.1) kv.2 (hwf kv hmem).1
    simp [Function.comp, hline]
  unfold countHostLines wireLines
  rw [if_neg (show ¬ (bodyWritten ctxHttp.method none = true) by decide)]
  by_cases hcs : containsKeyB hs (HKey.bytes (("Host").data)) = true
  · have hsyn : ¬ (synthesizesHost hs = true) := by simp [synthesizesHost, hcs]
    rw [if_neg hsyn, if_pos hcs]
    simp only [List.countP_cons, List.countP_append, List.countP_nil, List.nil_append]
    rw [hmap,
        if_neg (show ¬ (lineIsHost (ctxHttp.method ++ (' ' :: ctxHttp.path) ++
          (" HTTP/1.1").data) = true) by decide),
        if_neg (show ¬ (lineIsHost (("Connection: close").data) = true) by decide),
        if_neg (show ¬ (lineIsHost ([] : Bytes) = true) by decide)]
    simp only [show (("Host").data : Bytes) = ('H' :: 'o' :: 's' :: 't' :: []) from rfl]
    omega
  · have hsyn : synthesizesHost hs = true := by simp [synthesizesHost, hcs]
    rw [if_pos hsyn, if_neg hcs]
    simp only [List.countP_cons, List.countP_append, List.countP_nil, List.nil_append]
    rw [hmap,
        if_neg (show ¬ (lineIsHost (ctxHttp.method ++ (' ' :: ctxHttp.path) ++
          (" HTTP/1.1").data) = true) by decide),
        if_pos (show lineIsHost (("Host: ").data ++ ctxHttp.host) = true by decide),
        if_neg (show ¬ (lineIsHost (("Connection: close").data) = true) by decide),
        if_neg (show ¬ (lineIsHost ([] : Bytes) = true) by decide)]
    simp only [show (("Host").data : Bytes) = ('H' :: 'o' :: 's' :: 't' :: []) from rfl]
    omega

/-- C9 witness: with the `bytes` key `b"Host"` supplied, no synthesis
happens and exactly the one caller Host line is counted. -/
theorem c9_witness :
    countHostLines (wireLines ctxHttp [(HKey.bytes (("Host").data), ("x").data)] none false none) =
      (if containsKeyB [(HKey.bytes (("Host").data), ("x").data)] (HKey.bytes (("Host").data))
       then 0 else 1) +
      List.countP (fun kv => decide (keyBytes kv.1 = ("Host").data))
        [(HKey.bytes (("Host").data), ("x").data)] :=
  c9_host_synthesis_bytes_key_only [(HKey.bytes (("Host").data), ("x").data)] (by decide)


/-- Helper: a buffer containing an adjacent CR LF pair has a CRLF. -/
theorem hasCRLF_append_pair (x y : Bytes) : hasCRLF (x ++ '\r' :: '\n' :: y) = true := by
  induction x with
  | nil => simp [hasCRLF]
  | cons a t ih =>
    cases t with
    | nil => simp [hasCRLF]
    | cons b t2 =>
      simp only [List.cons_append, hasCRLF, Bool.or_eq_true]
      exact Or.inr (by simpa using ih)

/-- Helper: a buffer without any CR byte has no CRLF pair. -/
theorem hasCRLF_eq_false_of_no_cr (l : Bytes) (h : '\r' ∉ l) : hasCRLF l = false := by
  induction l with
  | nil => rfl
  | cons a t ih =>
    cases t with
    | nil => rfl
    | cons b r =>
      have ha : ¬ a = '\r' := fun e => h (by simp [e])
      have ht : ('\r') ∉ b :: r := fun m => h (List.mem_cons_of_mem _ m)
      simp [hasCRLF, ih ht, ha]

/-- Helper: if the reversed accumulator starts with LF CR (i.e. the
accumulated buffer ends with CRLF), the buffer contains a CRLF pair. -/
theorem hasCRLF_of_endsCRLFrev (racc : Bytes) (h : endsCRLFrev racc = true) (rest : Bytes) :
    hasCRLF (racc.reverse ++ rest) = true := by
  cases racc with
  | nil => simp [endsCRLFrev] at h
  | cons a t =>
    cases t with
    | nil => simp [endsCRLFrev] at h
    | cons b t2 =>
      simp only [endsCRLFrev, Bool.and_eq_true, beq_iff_eq] at h
      obtain ⟨ha, hb⟩ := h
      subst ha
      subst hb
      simp [List.reverse_cons, List.append_assoc, hasCRLF_append_pair]

/-- Helper: on a stream whose next `fuel` bytes (together with the already
accumulated buffer) contain no CRLF pair, the status-line loop never breaks
on the terminator and returns exactly the accumulated buffer plus those
`fuel` bytes, consuming them — it stops only at the `i > 4096` cap. -/
theorem statusLineLoop_no_crlf :
    ∀ (fuel i : Nat) (racc data : Bytes),
      i + fuel = 4097 → 0 < fuel →
      hasCRLF (racc.reverse ++ data.take fuel) = false →
      statusLineLoop fuel i racc ⟨data⟩ =
        (racc.reverse ++ data.take fuel, ⟨data.drop fuel⟩) := by
  intro fuel
  induction fuel with
  | zero =>
    intro i racc data _ h0 _
    exact absurd h0 (by omega)
  | succ f ih =>
    intro i racc data hsum _ hno
    cases data with
    | nil =>
      simp only [List.take_nil, List.append_nil] at hno ⊢
      cases f with
      | zero =>
        unfold statusLineLoop
        rw [if_pos (Or.inr (show 4096 < i + 1 by omega))]
        simp [ByteStream.read]
      | succ g =>
        unfold statusLineLoop
        rw [if_neg ?hcond]
        case hcond =>
          intro hor
          rcases hor with hends | hlt
          · have hends2 : endsCRLFrev racc = true := by
              simpa [ByteStream.read] using hends
            have := hasCRLF_of_endsCRLFrev _ hends2 []
            rw [List.append_nil, hno] at this
            exact Bool.false_ne_true this
          · omega
        have hres := ih (i + 1) racc [] (by omega) (by omega)
          (by simpa [List.take_nil, List.append_nil] using hno)
        simpa [ByteStream.read] using hres
    | cons d t =>
      cases f with
      | zero =>
        unfold statusLineLoop
        rw [if_pos (Or.inr (show 4096 < i + 1 by omega))]
        simp [ByteStream.read]
      | succ g =>
        have hno2 : hasCRLF ((d :: racc).reverse ++ t.take (g + 1)) = false := by
          rw [List.reverse_cons, List.append_assoc]
          simpa [List.take_succ_cons, List.append_assoc] using hno
        unfold statusLineLoop
        rw [if_neg ?hcond2]
        case hcond2 =>
          intro hor
          rcases hor with hends | hlt
          · have hends2 : endsCRLFrev (d :: racc) = true := by
              simpa [ByteStream.read] using hends
            have := hasCRLF_of_endsCRLFrev _ hends2 (t.take (g + 1))
            rw [hno2] at this
            exact Bool.false_ne_true this
          · omega
        have hih := ih (i + 1) (d :: racc) t (by omega) (by omega) hno2
        have hs2 : ((⟨d :: t⟩ : ByteStream).read 1).2 = (⟨t⟩ : ByteStream) := by
          simp [ByteStream.read]
        have hs1 : ((⟨d :: t⟩ : ByteStream).read 1).1.reverse ++ racc = d :: racc := by
          simp [ByteStream.read]
        rw [hs2, hs1, hih]
        simp [List.reverse_cons, List.append_assoc, List.take_succ_cons, List.drop_succ_cons]

/-- Helper: when the first 4097 stream bytes contain no CRLF, the
status-line reader returns exactly those 4097 bytes (fewer if the stream
ends first) — the cap check `i > MAX_READ_SIZE` fires at 4097 bytes read. -/
theorem readStatusLine_no_crlf (data : Bytes) (hno : hasCRLF (data.take 4097) = false) :
    readStatusLine ⟨data⟩ = (data.take 4097, ⟨data.drop 4097⟩) := by
  have hres := statusLineLoop_no_crlf 4097 0 [] data (by omega) (by omega)
    (by simpa using hno)
  simpa [readStatusLine] using hres


/-- A response stream whose first 4096 bytes contain no CRLF, yet whose
truncated prefix parses as a status line. -/
def cex5 : Bytes := ("A 200 ").data ++ List.replicate 5000 'x'

/-- C5 (amended).  When the first 4097 bytes of the stream contain no CRLF,
status-line reading stops only at the cap (`i > 4096`, i.e. after 4097
bytes) and the code then parses the truncated buffer as a status line: the
outcome of the status phase is exactly `parseStatus` of that truncated
prefix — no distinguished cap error is raised. -/
theorem c5_truncated_line_parsed (data : Bytes)
    (hno : hasCRLF (data.take 4097) = false) :
    readStatusLine ⟨data⟩ = (data.take 4097, ⟨data.drop 4097⟩) ∧
    statusStep ⟨data⟩ =
      (match parseStatus (data.take 4097) with
       | Except.error e => Except.error e
       | Except.ok sr => Except.ok (sr.1, sr.2, (⟨data.drop 4097⟩ : ByteStream))) := by
  have h1 := readStatusLine_no_crlf data hno
  refine ⟨h1, ?_⟩
  unfold statusStep
  rw [h1]


/-- C5 witness: 4200 bytes of `x` with no CRLF anywhere. -/
theorem c5_witness :
    readStatusLine ⟨List.replicate 4200 'x'⟩ =
      ((List.replicate 4200 'x').take 4097, ⟨(List.replicate 4200 'x').drop 4097⟩) ∧
    statusStep ⟨List.replicate 4200 'x'⟩ =
      (match parseStatus ((List.replicate 4200 'x').take 4097) with
       | Except.error e => Except.error e
       | Except.ok sr =>
         Except.ok (sr.1, sr.2, (⟨(List.replicate 4200 'x').drop 4097⟩ : ByteStream))) :=
  c5_truncated_line_parsed (List.replicate 4200 'x') (by
    rw [List.take_replicate]
    exact hasCRLF_eq_false_of_no_cr _
      (fun hm => absurd (List.eq_of_mem_replicate hm) (by decide)))

/-- Helper: whitespace-splitting of the truncated counterexample line. -/
theorem pySplitWs2_cex5 :
    pySplitWs2 (("A 200 ").data ++ List.replicate 4091 'x') =
      [('A' :: []), ('2' :: '0' :: '0' :: []), List.replicate 4091 'x'] := by
  rw [show (4091 : Nat) = 4090 + 1 from rfl, List.replicate_succ]
  rfl

/-- Helper: `rstrip` leaves a run of `x` bytes unchanged. -/
theorem rstripWs_x_replicate (n : Nat) : rstripWs (List.replicate n 'x') = List.replicate n 'x' := by
  unfold rstripWs
  rw [List.reverse_replicate, List.dropWhile_replicate]
  rw [if_neg (by decide)]
  rw [List.reverse_replicate]

/-- Helper: the truncated 4097-byte buffer `A 200 xxx…` parses as status
200 with the `x` run as reason. -/
theorem parseStatus_cex5 :
    parseStatus (("A 200 ").data ++ List.replicate 4091 'x') =
      Except.ok (200, List.replicate 4091 'x') := by
  simp only [parseStatus]
  rw [pySplitWs2_cex5]
  rw [show ([('A' :: []), ('2' :: '0' :: '0' :: []), List.replicate 4091 'x'].get? 1) =
        some ('2' :: '0' :: '0' :: []) from rfl]
  rw [show ([('A' :: []), ('2' :: '0' :: '0' :: []), List.replicate 4091 'x'].get? 2) =
        some (List.replicate 4091 'x') from rfl]
  change Except.ok ((200 : Int), rstripWs (List.replicate 4091 'x')) =
    Except.ok ((200 : Int), List.replicate 4091 'x')
  rw [rstripWs_x_replicate]

/-- C5 counterexample.  For the stream `A 200 ` followed by 5000 `x` bytes
(no CRLF in the first 4096 bytes), the status phase succeeds with status
200 parsed from the truncated line instead of failing with a
MalformedResponseError-style error. -/
theorem c5_counterexample_status_parsed :
    statusStep ⟨cex5⟩ = Except.ok (200, List.replicate 4091 'x', ⟨List.replicate 909 'x'⟩) := by
  have htake : cex5.take 4097 = ("A 200 ").data ++ List.replicate 4091 'x' := by
    unfold cex5
    rw [List.take_append_eq_append_take, List.take_of_length_le (by decide),
        List.take_replicate,
        show min (4097 - (("A 200 ").data : Bytes).length) 5000 = 4091 from rfl]
  have hdrop : cex5.drop 4097 = List.replicate 909 'x' := by
    unfold cex5
    rw [List.drop_append_eq_append_drop, List.drop_of_length_le (by decide),
        List.drop_replicate, List.nil_append,
        show 5000 - (4097 - (("A 200 ").data : Bytes).length) = 909 from rfl]
  have hno : hasCRLF (cex5.take 4097) = false := by
    rw [htake]
    refine hasCRLF_eq_false_of_no_cr _ ?_
    intro hmem
    rcases List.mem_append.mp hmem with hm | hm
    · exact absurd hm (by decide)
    · exact absurd (List.eq_of_mem_replicate hm) (by decide)
  have h1 := readStatusLine_no_crlf cex5 hno
  simp only [statusStep]
  rw [h1, htake, hdrop]
  dsimp only
  rw [parseStatus_cex5]
